import Mathlib

/-!
Verification development for the glacierwatch-pro repository.

Shallow embedding of the data model and the operations used by the
simulator view and the procedural mesh builders.  JavaScript numbers are
modelled as exact rationals; the JavaScript helpers toFixed(2)/toFixed(0)
followed by parseFloat are modelled as exact decimal rounding (round half
toward positive infinity, as the ECMAScript toFixed specification picks
the larger candidate integer).  The library functions Math.sin, Math.cos
and Math.sqrt are collected in a MathOps structure that the mesh builders
take as a parameter; everything else is translated directly from the
source.
-/

set_option autoImplicit false

/-! ### Data model (src/data/glaciers.ts, shipped as src/unnamed/part_000) -/

/-- Status field of a glacier record: `stable | melting | critical`. -/
inductive GlacierStatus where
  | stable
  | melting
  | critical
deriving DecidableEq, Repr

/-- Risk literal union used both by the dataset field riskLevel and by the
simulation result fields: `low | medium | high`. -/
inductive Risk where
  | low
  | medium
  | high
deriving DecidableEq, Repr

/-- Stress type selected in the simulator: `rockfall | seismic | warming`. -/
inductive StressType where
  | rockfall
  | seismic
  | warming
deriving DecidableEq, Repr

/-- coordinates: lat/lng pair. -/
structure Coordinates where
  lat : ℚ
  lng : ℚ
deriving DecidableEq, Repr

/-- elevation: min/max pair (metres). -/
structure ElevationRange where
  min : ℚ
  max : ℚ
deriving DecidableEq, Repr

/-- Glacier record, field for field as in the Glacier interface. -/
structure Glacier where
  id : String
  name : String
  nameRu : String
  coordinates : Coordinates
  area : ℚ
  volume : ℚ
  elevation : ElevationRange
  status : GlacierStatus
  meltRate : ℚ
  temperature : ℚ
  thickness : ℚ
  riskLevel : Risk
  region : String
  description : String
deriving DecidableEq, Repr

/-- First entry of tajikistanGlaciers. -/
def fedchenko : Glacier :=
  { id := "fedchenko"
    name := "Fedchenko Glacier"
    nameRu := "Ледник Федченко"
    coordinates := { lat := 38.85, lng := 72.25 }
    area := 700
    volume := 144
    elevation := { min := 2900, max := 6940 }
    status := .melting
    meltRate := 12.5
    temperature := -8
    thickness := 1000
    riskLevel := .medium
    region := "Памир"
    description := "Крупнейший ледник Таджикистана" }

/-- Second entry of tajikistanGlaciers. -/
def grummGrzhimailo : Glacier :=
  { id := "grumm-grzhimailo"
    name := "Grumm-Grzhimailo Glacier"
    nameRu := "Ледник Грумм-Гржимайло"
    coordinates := { lat := 38.75, lng := 72.1 }
    area := 143
    volume := 18
    elevation := { min := 3400, max := 6595 }
    status := .melting
    meltRate := 8.3
    temperature := -12
    thickness := 350
    riskLevel := .medium
    region := "Памир"
    description := "Второй по величине ледник Памира" }

/-- Third entry of tajikistanGlaciers. -/
def garmo : Glacier :=
  { id := "garmo"
    name := "Garmo Glacier"
    nameRu := "Ледник Гармо"
    coordinates := { lat := 38.95, lng := 72.0 }
    area := 114
    volume := 12
    elevation := { min := 2800, max := 6595 }
    status := .critical
    meltRate := 15.2
    temperature := -6
    thickness := 280
    riskLevel := .high
    region := "Памир"
    description := "Находится в критическом состоянии" }

/-- Fourth entry of tajikistanGlaciers. -/
def zeravshan : Glacier :=
  { id := "zeravshan"
    name := "Zeravshan Glacier"
    nameRu := "Зеравшанский ледник"
    coordinates := { lat := 39.45, lng := 68.35 }
    area := 134
    volume := 14
    elevation := { min := 2700, max := 5489 }
    status := .melting
    meltRate := 11.0
    temperature := -5
    thickness := 220
    riskLevel := .high
    region := "Фанские горы"
    description := "Главный источник реки Зеравшан" }

/-- Fifth entry of tajikistanGlaciers. -/
def fortambek : Glacier :=
  { id := "fortambek"
    name := "Fortambek Glacier"
    nameRu := "Ледник Фортамбек"
    coordinates := { lat := 38.92, lng := 72.08 }
    area := 45
    volume := 5.5
    elevation := { min := 3100, max := 6000 }
    status := .stable
    meltRate := 4.2
    temperature := -14
    thickness := 180
    riskLevel := .low
    region := "Памир"
    description := "Относительно стабильный ледник" }

/-- Sixth entry of tajikistanGlaciers. -/
def bivachny : Glacier :=
  { id := "bivachny"
    name := "Bivachny Glacier"
    nameRu := "Ледник Бивачный"
    coordinates := { lat := 38.88, lng := 72.15 }
    area := 57
    volume := 7
    elevation := { min := 3200, max := 5800 }
    status := .melting
    meltRate := 9.8
    temperature := -10
    thickness := 200
    riskLevel := .medium
    region := "Памир"
    description := "Приток ледника Федченко" }

/-- Seventh entry of tajikistanGlaciers. -/
def skogach : Glacier :=
  { id := "skogach"
    name := "Skogach Glacier"
    nameRu := "Ледник Скогач"
    coordinates := { lat := 39.1, lng := 71.8 }
    area := 38
    volume := 4
    elevation := { min := 3400, max := 5200 }
    status := .critical
    meltRate := 18.5
    temperature := -4
    thickness := 150
    riskLevel := .high
    region := "Памир"
    description := "Один из наиболее быстро тающих ледников региона" }

/-- Eighth entry of tajikistanGlaciers. -/
def sugran : Glacier :=
  { id := "sugran"
    name := "Sugran Glacier"
    nameRu := "Ледник Сугран"
    coordinates := { lat := 38.8, lng := 72.3 }
    area := 62
    volume := 8
    elevation := { min := 3000, max := 5600 }
    status := .melting
    meltRate := 7.6
    temperature := -11
    thickness := 240
    riskLevel := .medium
    region := "Памир"
    description := "Долинный ледник" }

/-- Static dataset: export const tajikistanGlaciers. -/
def tajikistanGlaciers : List Glacier :=
  [fedchenko, grummGrzhimailo, garmo, zeravshan, fortambek, bivachny, skogach, sugran]

/-- getGlacierById: tajikistanGlaciers.find(g => g.id === id). -/
def getGlacierById (id : String) : Option Glacier :=
  tajikistanGlaciers.find? (fun g => g.id == id)

/-- getGlaciersByStatus: tajikistanGlaciers.filter(g => g.status === status). -/
def getGlaciersByStatus (status : GlacierStatus) : List Glacier :=
  tajikistanGlaciers.filter (fun g => g.status == status)

/-- getGlaciersByRisk: tajikistanGlaciers.filter(g => g.riskLevel === risk). -/
def getGlaciersByRisk (risk : Risk) : List Glacier :=
  tajikistanGlaciers.filter (fun g => g.riskLevel == risk)

/-! ### Simulation calculator (src/components/modes/SimulatorMode.tsx) -/

/-- Exact model of parseFloat(x.toFixed(2)): round to two decimal places,
ties toward the larger integer numerator. -/
def round2 (q : ℚ) : ℚ := (⌊q * 100 + 1 / 2⌋ : ℚ) / 100

/-- Exact model of parseFloat(x.toFixed(0)): round to an integer, ties
toward the larger integer. -/
def round0 (q : ℚ) : ℚ := (⌊q + 1 / 2⌋ : ℚ)

/-- intensityFactor = params.intensity / 100 (the sliders produce integers). -/
def intensityFactor (intensity : ℕ) : ℚ := (intensity : ℚ) / 100

/-- tempFactor = params.temperature / 10. -/
def tempFactor (temperature : ℕ) : ℚ := (temperature : ℚ) / 10

/-- iceVolumeLoss = glacier.volume * intensityFactor * tempFactor * 0.1. -/
def iceVolumeLoss (g : Glacier) (intensity temperature : ℕ) : ℚ :=
  g.volume * intensityFactor intensity * tempFactor temperature * 0.1

/-- meltwaterVolume = iceVolumeLoss * 0.9. -/
def meltwaterVolume (g : Glacier) (intensity temperature : ℕ) : ℚ :=
  iceVolumeLoss g intensity temperature * 0.9

/-- crackDepth = glacier.thickness * intensityFactor * 0.3. -/
def crackDepth (g : Glacier) (intensity : ℕ) : ℚ :=
  g.thickness * intensityFactor intensity * 0.3

/-- getRisk: value < 0.3 gives low, value < 0.7 gives medium, else high. -/
def getRisk (value : ℚ) : Risk :=
  if value < 0.3 then .low
  else if value < 0.7 then .medium
  else .high

/-- calculateVulnerablePoint: simplified vulnerability calculation from the
glacier fields and the stress type. -/
def calculateVulnerablePoint (glacier : Glacier) (stress : StressType) : ℚ × ℚ :=
  let baseX := 0.3 + glacier.meltRate / 20 * 0.4
  let baseY : ℚ := if stress = .warming then 0.8 else 0.5
  (min 0.9 (baseX + glacier.thickness / 1000 * 0.2),
   baseY - glacier.elevation.min / 10000)

/-- SimulationResult record stored by setResult. -/
structure SimulationResult where
  vulnerablePoint : ℚ × ℚ
  iceVolumeLoss : ℚ
  meltwaterVolume : ℚ
  crackDepth : ℚ
  floodRisk : Risk
  landslideRisk : Risk
  waterLossRisk : Risk
deriving DecidableEq, Repr

/-- Body of the result useEffect: the record passed to setResult when
progress reaches 100 with a glacier selected. -/
def simulationResult (glacier : Glacier) (stress : StressType)
    (intensity temperature : ℕ) : SimulationResult :=
  { vulnerablePoint := calculateVulnerablePoint glacier stress
    iceVolumeLoss := round2 (iceVolumeLoss glacier intensity temperature)
    meltwaterVolume := round2 (meltwaterVolume glacier intensity temperature)
    crackDepth := round0 (crackDepth glacier intensity)
    floodRisk := getRisk (intensityFactor intensity * tempFactor temperature)
    landslideRisk := getRisk (intensityFactor intensity *
      (if glacier.riskLevel = .high then 1.5 else 1))
    waterLossRisk := getRisk (iceVolumeLoss glacier intensity temperature / glacier.volume) }

/-- SimulationParams state of the simulator view. -/
structure SimulationParams where
  glacier : Option Glacier
  stressType : StressType
  intensity : ℕ
  temperature : ℕ
deriving DecidableEq, Repr

/-- Initial useState value of params. -/
def initialParams : SimulationParams :=
  { glacier := none, stressType := .warming, intensity := 50, temperature := 5 }

/-- The run state of the simulator view: the isSimulating, progress and
result useState cells. -/
structure SimRunState where
  isSimulating : Bool
  progress : ℕ
  result : Option SimulationResult
deriving DecidableEq, Repr

/-- Initial useState values of isSimulating, progress and result. -/
def initialRunState : SimRunState :=
  { isSimulating := false, progress := 0, result := none }

/-- resetSimulation: setIsSimulating(false); setProgress(0); setResult(null). -/
def resetSimulation (_ : SimRunState) : SimRunState :=
  { isSimulating := false, progress := 0, result := none }

/-- runSimulation: returns immediately when no glacier is selected,
otherwise sets isSimulating, clears progress and result (the interval
that then advances progress over time is outside the state model). -/
def runSimulation (params : SimulationParams) (s : SimRunState) : SimRunState :=
  match params.glacier with
  | none => s
  | some _ => { isSimulating := true, progress := 0, result := none }

/-- onChange handler of the glacier select element: looks the chosen id up
in tajikistanGlaciers, stores it (or null) in params keeping the other
fields, and calls resetSimulation. -/
def onGlacierSelectChange (params : SimulationParams) (s : SimRunState)
    (value : String) : SimulationParams × SimRunState :=
  let glacier := tajikistanGlaciers.find? (fun g => g.id == value)
  ({ params with glacier := glacier }, resetSimulation s)

/-- Rank of a risk category in the order low < medium < high. -/
def riskRank : Risk → ℕ
  | .low => 0
  | .medium => 1
  | .high => 2

/-! ### Procedural mesh builders (MountainTerrain.tsx and GlacierModel.tsx) -/

/-- The Math library functions the builders call; a single fixed instance
is in scope for every invocation, so the builders are parameterized over
it. -/
structure MathOps where
  sin : ℚ → ℚ
  cos : ℚ → ℚ
  sqrt : ℚ → ℚ

/-- Geometry buffers a builder emits: flat position array (x, y, z per
vertex), flat normal array as pushed before computeVertexNormals, flat UV
array, and the triangle index list. -/
structure GeometryBuffers where
  vertices : List ℚ
  normals : List ℚ
  uvs : List ℚ
  indices : List ℕ
deriving DecidableEq, Repr

/-- Shared index loop of both builders: two triangles per grid cell,
indices.push(a, c, b) and indices.push(b, c, d). -/
def gridIndices (segments : ℕ) : List ℕ :=
  (List.range segments).flatMap fun i =>
    (List.range segments).flatMap fun j =>
      let a := i * (segments + 1) + j
      let b := a + 1
      let c := a + segments + 1
      let d := c + 1
      [a, c, b, b, c, d]

/-- Shared normal loop of both builders: normals.push(0, 1, 0) per vertex. -/
def gridNormals (segments : ℕ) : List ℚ :=
  (List.range (segments + 1)).flatMap fun _ =>
    (List.range (segments + 1)).flatMap fun _ =>
      ([0, 1, 0] : List ℚ)

/-- Shared UV loop of both builders: uvs.push(i / segments, j / segments). -/
def gridUVs (segments : ℕ) : List ℚ :=
  (List.range (segments + 1)).flatMap fun i =>
    (List.range (segments + 1)).flatMap fun j =>
      [(i : ℚ) / segments, (j : ℚ) / segments]

/-- glacierData prop of MountainTerrain: elevation range, area and id. -/
structure TerrainData where
  elevationMin : ℚ
  elevationMax : ℚ
  area : ℚ
  id : String
deriving DecidableEq, Repr

/-- segments = simplified ? 32 : 48. -/
def terrainSegments (simplified : Bool) : ℕ := if simplified then 32 else 48

/-- seed = glacierData?.id ? glacierData.id.charCodeAt(0) : 42 (an empty
id string is falsy and also yields 42). -/
def terrainSeed (glacierData : Option TerrainData) : ℚ :=
  match glacierData with
  | none => 42
  | some g =>
    match g.id.data with
    | [] => 42
    | c :: _ => (c.toNat : ℚ)

/-- seededRandom(x, z): fractional part of sin(x * 12.9898 + z * 78.233 +
seed) * 43758.5453. -/
def seededRandom (ops : MathOps) (seed x z : ℚ) : ℚ :=
  let n := ops.sin (x * 12.9898 + z * 78.233 + seed) * 43758.5453
  n - (⌊n⌋ : ℚ)

/-- Height of one terrain grid cell before the final Math.max(-2, ...)
floor: mountain noise, four peak bumps, valley dampening, edge
flattening, and the optional elevation scale. -/
def terrainHeight (ops : MathOps) (glacierData : Option TerrainData)
    (seed size x z : ℚ) : ℚ :=
  let distFromCenter := ops.sqrt (x * x + z * z)
  let mountainNoise1 := ops.sin (x * 0.3) * ops.cos (z * 0.2) * 2
  let mountainNoise2 := ops.sin (x * 0.15 + 1) * ops.sin (z * 0.25) * 3
  let mountainNoise3 := seededRandom ops seed (x * 0.5) (z * 0.5) * 0.8
  let h0 := mountainNoise1 + mountainNoise2 + mountainNoise3
  let peak1Dist := ops.sqrt ((x + 8) ^ 2 + (z + 10) ^ 2)
  let peak2Dist := ops.sqrt ((x - 10) ^ 2 + (z + 8) ^ 2)
  let peak3Dist := ops.sqrt ((x - 5) ^ 2 + (z - 12) ^ 2)
  let peak4Dist := ops.sqrt ((x + 12) ^ 2 + (z - 6) ^ 2)
  let h1 := h0 + max 0 (5 - peak1Dist * 0.5) + max 0 (6 - peak2Dist * 0.4)
    + max 0 (4.5 - peak3Dist * 0.45) + max 0 (3.5 - peak4Dist * 0.5)
  let valleyDist := ops.sqrt (x * x * 0.5 + z * z)
  let h2 := if valleyDist < 6 then h1 * (0.3 + valleyDist * 0.12) else h1
  let h3 :=
    if distFromCenter > size * 0.4 then
      let edge := (distFromCenter - size * 0.4) / (size * 0.1)
      h2 * max 0 (1 - edge)
    else h2
  match glacierData with
  | some g =>
    let elevationScale := (g.elevationMax - g.elevationMin) / 3000
    h3 * (0.8 + elevationScale * 0.5)
  | none => h3

/-- Terrain vertex loop: vertices.push(x, Math.max(-2, height), z) over the
(segments+1) by (segments+1) grid (the source fills the vertex, normal and
UV arrays in the same pass; the three lists are built here by separate
identical loops). -/
def terrainVertexList (ops : MathOps) (glacierData : Option TerrainData)
    (simplified : Bool) : List ℚ :=
  let size : ℚ := 40
  let segments := terrainSegments simplified
  let seed := terrainSeed glacierData
  (List.range (segments + 1)).flatMap fun i =>
    (List.range (segments + 1)).flatMap fun j =>
      let x := ((i : ℚ) / segments - 0.5) * size
      let z := ((j : ℚ) / segments - 0.5) * size
      [x, max (-2) (terrainHeight ops glacierData seed size x z), z]

/-- terrainGeometry of MountainTerrain: the buffers set on the
BufferGeometry before computeVertexNormals. -/
def terrainGeometry (ops : MathOps) (glacierData : Option TerrainData)
    (simplified : Bool) : GeometryBuffers :=
  { vertices := terrainVertexList ops glacierData simplified
    normals := gridNormals (terrainSegments simplified)
    uvs := gridUVs (terrainSegments simplified)
    indices := gridIndices (terrainSegments simplified) }

/-- glacierType prop of GlacierModel. -/
inductive GlacierType where
  | valley
  | mountain
  | piedmont
deriving DecidableEq, Repr

/-- glacierData prop of GlacierModel: thickness, area and elevation range. -/
structure GlacierMetrics where
  thickness : ℚ
  area : ℚ
  elevationMin : ℚ
  elevationMax : ℚ
deriving DecidableEq, Repr

/-- segments = 24 in the glacier-body builder. -/
def glacierSegments : ℕ := 24

/-- Base length/width/height by glacier type (valley is the default). -/
def glacierBaseDims (glacierType : GlacierType) : ℚ × ℚ × ℚ :=
  match glacierType with
  | .valley => (3, 1.5, 0.8)
  | .mountain => (2, 1.8, 1.2)
  | .piedmont => (2.5, 2.5, 0.5)

/-- Dimensions after the optional glacierData rescale: areaScale =
sqrt(area) / 20 capped at 2 for length and width, thickness / 500 for
height. -/
def glacierDims (ops : MathOps) (glacierType : GlacierType)
    (glacierData : Option GlacierMetrics) : ℚ × ℚ × ℚ :=
  let d := glacierBaseDims glacierType
  match glacierData with
  | none => d
  | some g =>
    let areaScale := ops.sqrt g.area / 20
    (d.1 * min 2 areaScale, d.2.1 * min 2 areaScale, d.2.2 * (g.thickness / 500))

/-- Glacier-body vertex loop: radial base taper, sinusoidal ridge terms,
coordinate-hashed crevasse depression, sinusoidal noise, edge taper, and
the Math.max(0, ...) floor. -/
def glacierVertexList (ops : MathOps) (glacierType : GlacierType)
    (glacierData : Option GlacierMetrics) : List ℚ :=
  let segments := glacierSegments
  let dims := glacierDims ops glacierType glacierData
  let length := dims.1
  let width := dims.2.1
  let height := dims.2.2
  (List.range (segments + 1)).flatMap fun i =>
    (List.range (segments + 1)).flatMap fun j =>
      let x := ((i : ℚ) / segments - 0.5) * length
      let z := ((j : ℚ) / segments - 0.5) * width
      let distFromCenter := ops.sqrt (x * x * 0.3 + z * z)
      let baseHeight := height * (1 - distFromCenter * 0.4)
      let ridge := ops.sin ((i : ℚ) * 0.5) * 0.08 + ops.sin ((j : ℚ) * 0.7) * 0.04
      let crevasse : ℚ := if ops.sin ((i : ℚ) * 3 + (j : ℚ) * 2) > 0.8 then 0.03 else 0
      let noise := ops.sin ((i : ℚ) * 2 + (j : ℚ) * 3) * 0.025
      let taper := max 0 (1 - |x| / (length * 0.5))
      let y := max 0 (baseHeight * taper + ridge + noise - crevasse)
      [x, y, z]

/-- geometry of GlacierModel: the buffers set on the BufferGeometry before
computeVertexNormals. -/
def glacierGeometry (ops : MathOps) (glacierType : GlacierType)
    (glacierData : Option GlacierMetrics) : GeometryBuffers :=
  { vertices := glacierVertexList ops glacierType glacierData
    normals := gridNormals glacierSegments
    uvs := gridUVs glacierSegments
    indices := gridIndices glacierSegments }

/-- A concrete MathOps instance used only to instantiate witnesses. -/
def zeroOps : MathOps :=
  { sin := fun _ => 0, cos := fun _ => 0, sqrt := fun _ => 0 }

/-- TerrainData value for the fedchenko record, used to instantiate
witnesses. -/
def fedchenkoTerrain : TerrainData :=
  { elevationMin := 2900, elevationMax := 6940, area := 700, id := "fedchenko" }

/-! ### Helper lemmas -/

/-- getRisk is monotone with respect to the order low < medium < high. -/
lemma riskRank_getRisk_mono {v w : ℚ} (h : v ≤ w) :
    riskRank (getRisk v) ≤ riskRank (getRisk w) := by
  unfold getRisk
  split_ifs <;> simp [riskRank] <;> linarith

/-! ### Claim theorems: simulation calculator -/

/-- C1: for every selected glacier, stress type, intensity in [10, 100] and
temperature delta in [1, 10], the computed ice volume loss equals
volume * (intensity / 100) * (temperature / 10) * 0.1, and at
intensity = 100, temperature = 10 it equals volume * 0.1. -/
theorem iceVolumeLoss_formula (g : Glacier) (st : StressType)
    (intensity temperature : ℕ)
    (h1 : 10 ≤ intensity) (h2 : intensity ≤ 100)
    (h3 : 1 ≤ temperature) (h4 : temperature ≤ 10) :
    iceVolumeLoss g intensity temperature
      = g.volume * ((intensity : ℚ) / 100) * ((temperature : ℚ) / 10) * 0.1 ∧
    iceVolumeLoss g 100 10 = g.volume * 0.1 := by
  constructor
  · rfl
  · unfold iceVolumeLoss intensityFactor tempFactor
    norm_num

/-- Witness for C1 at the fedchenko record, warming, intensity 50,
temperature 5. -/
theorem iceVolumeLoss_formula_witness :
    10 ≤ 50 ∧ 50 ≤ 100 ∧ 1 ≤ 5 ∧ 5 ≤ 10 ∧
    (iceVolumeLoss fedchenko 50 5
      = fedchenko.volume * (((50 : ℕ) : ℚ) / 100) * (((5 : ℕ) : ℚ) / 10) * 0.1 ∧
     iceVolumeLoss fedchenko 100 10 = fedchenko.volume * 0.1) :=
  ⟨by decide, by decide, by decide, by decide,
   iceVolumeLoss_formula fedchenko .warming 50 5
     (by decide) (by decide) (by decide) (by decide)⟩

/-- C2 counterexample: for the fedchenko record at intensity 10 and
temperature 1 the stored (toFixed-rounded) meltwater volume is 0.13 while
0.9 times the stored ice volume loss is 0.9 * 0.14 = 0.126, so the two
reported fields do not stand in an exact 0.9 ratio. -/
theorem meltwater_reported_ratio_cex :
    (simulationResult fedchenko .warming 10 1).meltwaterVolume ≠
      0.9 * (simulationResult fedchenko .warming 10 1).iceVolumeLoss := by
  norm_num [simulationResult, meltwaterVolume, iceVolumeLoss,
    intensityFactor, tempFactor, round2, fedchenko]

/-- C2 amended: the computed meltwater volume equals 0.9 times the
computed ice volume loss for all inputs; the result record stores each of
the two rounded to two decimal places, so the exact ratio holds before
rounding, not necessarily between the stored fields. -/
theorem meltwater_ratio_amended (g : Glacier) (st : StressType)
    (intensity temperature : ℕ) :
    meltwaterVolume g intensity temperature
      = 0.9 * iceVolumeLoss g intensity temperature ∧
    (simulationResult g st intensity temperature).meltwaterVolume
      = round2 (meltwaterVolume g intensity temperature) ∧
    (simulationResult g st intensity temperature).iceVolumeLoss
      = round2 (iceVolumeLoss g intensity temperature) := by
  refine ⟨?_, rfl, rfl⟩
  unfold meltwaterVolume
  ring

/-- C3: getRisk buckets its argument with the thresholds 0.3 and 0.7
(low below 0.3, medium in [0.3, 0.7), high at or above 0.7, and no other
value), and each of the three risk fields of the result is getRisk of its
derived ratio. -/
theorem risk_bucketing (g : Glacier) (st : StressType)
    (intensity temperature : ℕ) (v : ℚ) :
    ((getRisk v = .low ↔ v < 0.3) ∧
     (getRisk v = .medium ↔ 0.3 ≤ v ∧ v < 0.7) ∧
     (getRisk v = .high ↔ 0.7 ≤ v)) ∧
    (simulationResult g st intensity temperature).floodRisk
      = getRisk (intensityFactor intensity * tempFactor temperature) ∧
    (simulationResult g st intensity temperature).landslideRisk
      = getRisk (intensityFactor intensity *
          (if g.riskLevel = .high then 1.5 else 1)) ∧
    (simulationResult g st intensity temperature).waterLossRisk
      = getRisk (iceVolumeLoss g intensity temperature / g.volume) := by
  refine ⟨⟨?_, ?_, ?_⟩, rfl, rfl, rfl⟩ <;>
    unfold getRisk <;> split_ifs <;> simp_all <;> linarith

/-- C4: for a fixed glacier with positive volume and a fixed stress type,
each of the three risk categories of the result is non-decreasing in the
intensity and in the temperature delta within the slider ranges. -/
theorem risk_monotone (g : Glacier) (st : StressType) (i1 t1 i2 t2 : ℕ)
    (hi1 : 10 ≤ i1) (hi2 : i2 ≤ 100) (ht1 : 1 ≤ t1) (ht2 : t2 ≤ 10)
    (hvol : 0 < g.volume) (hii : i1 ≤ i2) (htt : t1 ≤ t2) :
    riskRank (simulationResult g st i1 t1).floodRisk
      ≤ riskRank (simulationResult g st i2 t2).floodRisk ∧
    riskRank (simulationResult g st i1 t1).landslideRisk
      ≤ riskRank (simulationResult g st i2 t2).landslideRisk ∧
    riskRank (simulationResult g st i1 t1).waterLossRisk
      ≤ riskRank (simulationResult g st i2 t2).waterLossRisk := by
  have hiq : (i1 : ℚ) ≤ (i2 : ℚ) := by exact_mod_cast hii
  have htq : (t1 : ℚ) ≤ (t2 : ℚ) := by exact_mod_cast htt
  have hi0 : (0 : ℚ) ≤ (i1 : ℚ) := Nat.cast_nonneg i1
  have ht0 : (0 : ℚ) ≤ (t1 : ℚ) := Nat.cast_nonneg t1
  refine ⟨?_, ?_, ?_⟩
  · apply riskRank_getRisk_mono
    unfold intensityFactor tempFactor
    apply mul_le_mul
    · linarith
    · linarith
    · linarith
    · linarith
  · apply riskRank_getRisk_mono
    apply mul_le_mul_of_nonneg_right
    · unfold intensityFactor; linarith
    · split_ifs <;> norm_num
  · apply riskRank_getRisk_mono
    rw [div_le_div_iff_of_pos_right hvol]
    unfold iceVolumeLoss intensityFactor tempFactor
    have hv0 : (0 : ℚ) ≤ g.volume := le_of_lt hvol
    have step1 : g.volume * ((i1 : ℚ) / 100) ≤ g.volume * ((i2 : ℚ) / 100) := by
      apply mul_le_mul_of_nonneg_left _ hv0
      linarith
    have step2 : g.volume * ((i1 : ℚ) / 100) * ((t1 : ℚ) / 10)
        ≤ g.volume * ((i2 : ℚ) / 100) * ((t2 : ℚ) / 10) := by
      apply mul_le_mul step1 (by linarith) (by linarith)
      exact mul_nonneg hv0 (by positivity)
    exact mul_le_mul_of_nonneg_right step2 (by norm_num)

/-- Witness for C4 at the fedchenko record, warming, intensity 50 to 60,
temperature 5 to 6. -/
theorem risk_monotone_witness :
    10 ≤ 50 ∧ 60 ≤ 100 ∧ 1 ≤ 5 ∧ 6 ≤ 10 ∧ 0 < fedchenko.volume ∧
    50 ≤ 60 ∧ 5 ≤ 6 ∧
    (riskRank (simulationResult fedchenko .warming 50 5).floodRisk
       ≤ riskRank (simulationResult fedchenko .warming 60 6).floodRisk ∧
     riskRank (simulationResult fedchenko .warming 50 5).landslideRisk
       ≤ riskRank (simulationResult fedchenko .warming 60 6).landslideRisk ∧
     riskRank (simulationResult fedchenko .warming 50 5).waterLossRisk
       ≤ riskRank (simulationResult fedchenko .warming 60 6).waterLossRisk) :=
  ⟨by decide, by decide, by decide, by decide, by norm_num [fedchenko],
   by decide, by decide,
   risk_monotone fedchenko .warming 50 5 60 6
     (by decide) (by decide) (by decide) (by decide)
     (by norm_num [fedchenko]) (by decide) (by decide)⟩

/-- C5: for the fedchenko record (volume 144, thickness 1000) under
warming at intensity 100 and temperature 10, the stored result fields are
iceVolumeLoss 14.4, meltwaterVolume 12.96 and crackDepth 300, and the
crack depth follows thickness * (intensity / 100) * 0.3. -/
theorem fedchenko_scenario :
    fedchenko.volume = 144 ∧ fedchenko.thickness = 1000 ∧
    (simulationResult fedchenko .warming 100 10).iceVolumeLoss = 14.4 ∧
    (simulationResult fedchenko .warming 100 10).meltwaterVolume = 12.96 ∧
    (simulationResult fedchenko .warming 100 10).crackDepth = 300 ∧
    crackDepth fedchenko 100
      = fedchenko.thickness * (((100 : ℕ) : ℚ) / 100) * 0.3 := by
  refine ⟨rfl, rfl, ?_, ?_, ?_, rfl⟩ <;>
    norm_num [simulationResult, meltwaterVolume, iceVolumeLoss, crackDepth,
      intensityFactor, tempFactor, round2, round0, fedchenko]

/-- C6: when no glacier is selected, runSimulation returns without
changing the simulation run state. -/
theorem runSimulation_guard (p : SimulationParams) (s : SimRunState)
    (h : p.glacier = none) : runSimulation p s = s := by
  unfold runSimulation
  rw [h]

/-- Witness for C6 at the initial state, whose glacier field is null. -/
theorem runSimulation_guard_witness :
    initialParams.glacier = none ∧
    runSimulation initialParams initialRunState = initialRunState :=
  ⟨rfl, runSimulation_guard initialParams initialRunState rfl⟩

/-- C7 counterexample: changing the glacier selection to fedchenko while
intensity is 80 leaves intensity at 80, not at its initial value 50, so
the selection change does not reset the simulation parameters. -/
theorem selection_reset_cex :
    ((onGlacierSelectChange
        { glacier := none, stressType := .rockfall, intensity := 80, temperature := 3 }
        initialRunState "fedchenko").1).intensity ≠ initialParams.intensity := by
  decide

/-- C7 amended: a glacier selection change stores the newly looked-up
glacier, keeps the stress type, intensity and temperature unchanged, and
resets only the run state (isSimulating, progress, result) to its initial
values. -/
theorem selection_change_amended (p : SimulationParams) (s : SimRunState)
    (v : String) :
    (onGlacierSelectChange p s v).1.glacier
      = tajikistanGlaciers.find? (fun g => g.id == v) ∧
    (onGlacierSelectChange p s v).1.stressType = p.stressType ∧
    (onGlacierSelectChange p s v).1.intensity = p.intensity ∧
    (onGlacierSelectChange p s v).1.temperature = p.temperature ∧
    (onGlacierSelectChange p s v).2 = initialRunState :=
  ⟨rfl, rfl, rfl, rfl, rfl⟩

/-! ### Claim theorems: mesh builders -/

/-- Length of a flatMap whose pieces all have the same length. -/
lemma length_flatMap_const {α β : Type} (l : List α) (f : α → List β) (k : ℕ)
    (h : ∀ a ∈ l, (f a).length = k) : (l.flatMap f).length = k * l.length := by
  induction l with
  | nil => simp
  | cons a l ih =>
    rw [List.flatMap_cons, List.length_append, List.length_cons,
      h a (List.mem_cons_self a l), ih (fun b hb => h b (List.mem_cons_of_mem a hb))]
    ring

/-- Length of the doubly nested grid loop both builders use. -/
lemma length_grid_flatMap {β : Type} (m : ℕ) (f : ℕ → ℕ → List β) (c : ℕ)
    (h : ∀ i j, (f i j).length = c) :
    ((List.range m).flatMap fun i => (List.range m).flatMap fun j => f i j).length
      = c * m * m := by
  rw [length_flatMap_const _ _ (c * m)]
  · rw [List.length_range]
  · intro i _
    rw [length_flatMap_const _ _ c (fun j _ => h i j), List.length_range]

/-- The index loop emits six entries per grid cell. -/
lemma gridIndices_length (n : ℕ) : (gridIndices n).length = 6 * n ^ 2 := by
  unfold gridIndices
  refine (length_grid_flatMap n _ 6 ?_).trans ?_
  · intro i j
    rfl
  · ring

/-- The vertex loop of the terrain builder emits three coordinates per
grid point. -/
lemma terrainVertexList_length (ops : MathOps) (gd : Option TerrainData)
    (s : Bool) :
    (terrainVertexList ops gd s).length = 3 * (terrainSegments s + 1) ^ 2 := by
  unfold terrainVertexList
  refine (length_grid_flatMap (terrainSegments s + 1) _ 3 ?_).trans ?_
  · intro i j
    rfl
  · ring

/-- The vertex loop of the glacier-body builder emits three coordinates
per grid point. -/
lemma glacierVertexList_length (ops : MathOps) (gt : GlacierType)
    (gm : Option GlacierMetrics) :
    (glacierVertexList ops gt gm).length = 3 * (glacierSegments + 1) ^ 2 := by
  unfold glacierVertexList
  refine (length_grid_flatMap (glacierSegments + 1) _ 3 ?_).trans ?_
  · intro i j
    rfl
  · ring

/-- Arithmetic bound for the largest index (d) a grid cell emits. -/
lemma grid_index_bound {n i j : ℕ} (hi : i < n) (hj : j < n) :
    i * (n + 1) + j + n + 2 < (n + 1) ^ 2 := by
  have h1 : (i + 1) * (n + 1) ≤ n * (n + 1) :=
    Nat.mul_le_mul_right (n + 1) hi
  have h2 : n * (n + 1) + n + 1 = (n + 1) ^ 2 := by ring
  have h3 : i * (n + 1) + j + n + 2 = (i + 1) * (n + 1) + (j + 1) := by ring
  have h4 : j + 1 ≤ n := hj
  linarith

/-- Every entry of the shared index loop references an existing vertex. -/
lemma mem_gridIndices_lt {n k : ℕ} (hk : k ∈ gridIndices n) : k < (n + 1) ^ 2 := by
  unfold gridIndices at hk
  rw [List.mem_flatMap] at hk
  obtain ⟨i, hi, hk⟩ := hk
  rw [List.mem_flatMap] at hk
  obtain ⟨j, hj, hk⟩ := hk
  rw [List.mem_range] at hi
  rw [List.mem_range] at hj
  have hb := grid_index_bound hi hj
  simp only [List.mem_cons, List.not_mem_nil, or_false] at hk
  rcases hk with h | h | h | h | h | h <;> subst h <;> linarith

/-- C8: the seeded terrain mesh builder is deterministic: with the same
Math library, the same optional glacier metrics (including the id the
noise seed is taken from) and the same simplified flag, two invocations
produce identical position, normal, UV and index buffers. -/
theorem terrainGeometry_deterministic (ops : MathOps)
    (gd1 gd2 : Option TerrainData) (s1 s2 : Bool)
    (hgd : gd1 = gd2) (hs : s1 = s2) :
    terrainGeometry ops gd1 s1 = terrainGeometry ops gd2 s2 := by
  rw [hgd, hs]

/-- Witness for C8 at the fedchenko terrain metrics with the simplified
flag set. -/
theorem terrainGeometry_deterministic_witness :
    (some fedchenkoTerrain : Option TerrainData) = some fedchenkoTerrain ∧
    true = true ∧
    terrainGeometry zeroOps (some fedchenkoTerrain) true
      = terrainGeometry zeroOps (some fedchenkoTerrain) true :=
  ⟨rfl, rfl,
   terrainGeometry_deterministic zeroOps (some fedchenkoTerrain)
     (some fedchenkoTerrain) true true rfl rfl⟩

/-- C9: for every input, the terrain builder (n = 32 simplified, n = 48
otherwise) and the glacier-body builder (n = 24) emit 3 * (n + 1)^2
position entries, that is (n + 1)^2 vertices, and 6 * n^2 index entries,
that is 2 * n^2 triangles. -/
theorem mesh_counts (ops : MathOps) (gd : Option TerrainData) (s : Bool)
    (gt : GlacierType) (gm : Option GlacierMetrics) :
    terrainSegments true = 32 ∧ terrainSegments false = 48 ∧
    glacierSegments = 24 ∧
    (terrainGeometry ops gd s).vertices.length
      = 3 * (terrainSegments s + 1) ^ 2 ∧
    (terrainGeometry ops gd s).indices.length = 6 * terrainSegments s ^ 2 ∧
    (glacierGeometry ops gt gm).vertices.length
      = 3 * (glacierSegments + 1) ^ 2 ∧
    (glacierGeometry ops gt gm).indices.length = 6 * glacierSegments ^ 2 :=
  ⟨rfl, rfl, rfl,
   terrainVertexList_length ops gd s,
   gridIndices_length (terrainSegments s),
   glacierVertexList_length ops gt gm,
   gridIndices_length glacierSegments⟩

/-- C10: every entry of the index buffers of the terrain builder and the
glacier-body builder is strictly below the vertex count (n + 1)^2 of the
respective grid, so no triangle references a non-existent vertex. -/
theorem mesh_indices_in_bounds (ops : MathOps) (gd : Option TerrainData)
    (s : Bool) (gt : GlacierType) (gm : Option GlacierMetrics) :
    (∀ k ∈ (terrainGeometry ops gd s).indices, k < (terrainSegments s + 1) ^ 2) ∧
    (∀ k ∈ (glacierGeometry ops gt gm).indices, k < (glacierSegments + 1) ^ 2) :=
  ⟨fun _ hk => mem_gridIndices_lt hk, fun _ hk => mem_gridIndices_lt hk⟩

/-- Witness for C10: the first index entry of the simplified terrain mesh
is in bounds. -/
theorem mesh_indices_in_bounds_witness :
    0 ∈ (terrainGeometry zeroOps none true).indices ∧
    0 < (terrainSegments true + 1) ^ 2 :=
  ⟨by decide,
   (mesh_indices_in_bounds zeroOps none true .valley none).1 0 (by decide)⟩
